import Mathlib

/-!
Shallow embedding of `src/media/media_decoder.cpp` (ring-daemon stream decode
engine): the decode-loop state machine, flush, pixel-format normalization,
input option building, stream selection / setup, and the audio
post-processor's resampler handling.  External libav calls are modelled as
oracle inputs (their return codes and observable data), and the functions
below mirror the C++ control flow line by line on those inputs.
-/

namespace ring

/-- Result taxonomy of `MediaDecoder::decode` / `flush`
(`MediaDecoder::Status` in media_decoder.h, as used by media_decoder.cpp). -/
inductive Status
  | Success
  | FrameFinished
  | EOFError
  | ReadError
  | DecodeError
  | RestartRequired
deriving DecidableEq, Repr

/-- libav error code `AVERROR(EAGAIN)` (negative errno, Linux value). -/
def AVERROR_EAGAIN : Int := -11

/-- libav error code `AVERROR_EOF` (`FFERRTAG('E','O','F',' ')`). -/
def AVERROR_EOF : Int := -541478725

/-- Oracle inputs for one call of `MediaDecoder::decode(VideoFrame&)`:
the return codes of the libav calls made during the call, the stream index
carried by the read packet, and the accelerator state (`none` = no
accelerator attached, `some b` = attached with `hasFailed() = b`). -/
structure VideoDecodeEnv where
  readResult : Int
  packetStreamIndex : Int
  sendResult : Int
  receiveResult : Int
  accel : Option Bool
deriving DecidableEq, Repr

/-- Observable side effects of one video decode / flush call:
whether `av_packet_unref(&inpacket)` ran before returning, whether
`avcodec_receive_frame` succeeded (the caller frame was written), and
whether `accel_->extractData(result)` was called. -/
structure DecodeEffects where
  packetUnref : Bool
  frameWritten : Bool
  extractCalled : Bool
deriving DecidableEq, Repr

/-- `accel_ && accel_->hasFailed()` on the modelled accelerator state. -/
def accelFailed : Option Bool → Bool
  | some b => b
  | none => false

/-- `MediaDecoder::decode(VideoFrame&)` (media_decoder.cpp lines 329-397),
on the oracle environment: read one packet, drop foreign-stream packets,
submit, receive, unref, and post-process, translating every outcome into a
`Status` exactly as the C++ branches do. -/
def decodeVideo (streamIndex : Int) (env : VideoDecodeEnv) : Status × DecodeEffects :=
  if env.readResult = AVERROR_EAGAIN then
    (Status.Success, ⟨false, false, false⟩)
  else if env.readResult = AVERROR_EOF then
    (Status.EOFError, ⟨false, false, false⟩)
  else if env.readResult < 0 then
    (Status.ReadError, ⟨false, false, false⟩)
  else if env.packetStreamIndex ≠ streamIndex then
    (Status.Success, ⟨true, false, false⟩)
  else if env.sendResult < 0 then
    if accelFailed env.accel then
      (Status.RestartRequired, ⟨false, false, false⟩)
    else if env.sendResult = AVERROR_EOF then
      (Status.Success, ⟨false, false, false⟩)
    else
      (Status.DecodeError, ⟨false, false, false⟩)
  else if env.receiveResult < 0 ∧ env.receiveResult ≠ AVERROR_EAGAIN ∧
      env.receiveResult ≠ AVERROR_EOF then
    if accelFailed env.accel then
      (Status.RestartRequired, ⟨false, false, false⟩)
    else
      (Status.DecodeError, ⟨false, false, false⟩)
  else if 0 ≤ env.receiveResult then
    if env.accel.isSome then
      if accelFailed env.accel then (Status.RestartRequired, ⟨true, true, false⟩)
      else (Status.FrameFinished, ⟨true, true, true⟩)
    else (Status.FrameFinished, ⟨true, true, false⟩)
  else
    (Status.Success, ⟨true, false, false⟩)

/-- Oracle inputs for one call of `MediaDecoder::decode(const AudioFrame&)`
(no accelerator on the audio path). -/
structure AudioDecodeEnv where
  readResult : Int
  packetStreamIndex : Int
  sendResult : Int
  receiveResult : Int
deriving DecidableEq, Repr

/-- Observable side effects of one audio decode call. -/
structure AudioDecodeEffects where
  packetUnref : Bool
  frameWritten : Bool
deriving DecidableEq, Repr

/-- `MediaDecoder::decode(const AudioFrame&)` (media_decoder.cpp lines
400-451).  Note the C++ only calls `av_packet_unref` inside the
`frameFinished` branch on this path. -/
def decodeAudio (streamIndex : Int) (env : AudioDecodeEnv) : Status × AudioDecodeEffects :=
  if env.readResult = AVERROR_EAGAIN then
    (Status.Success, ⟨false, false⟩)
  else if env.readResult = AVERROR_EOF then
    (Status.EOFError, ⟨false, false⟩)
  else if env.readResult < 0 then
    (Status.ReadError, ⟨false, false⟩)
  else if env.packetStreamIndex ≠ streamIndex then
    (Status.Success, ⟨true, false⟩)
  else if env.sendResult < 0 then
    if env.sendResult = AVERROR_EOF then (Status.Success, ⟨false, false⟩)
    else (Status.DecodeError, ⟨false, false⟩)
  else if env.receiveResult < 0 ∧ env.receiveResult ≠ AVERROR_EAGAIN ∧
      env.receiveResult ≠ AVERROR_EOF then
    (Status.DecodeError, ⟨false, false⟩)
  else if 0 ≤ env.receiveResult then
    (Status.FrameFinished, ⟨true, true⟩)
  else
    (Status.Success, ⟨false, false⟩)

/-- Oracle inputs for one call of `MediaDecoder::flush(VideoFrame&)`:
submission and retrieval results for the empty drain packet, and the
accelerator state. -/
structure FlushEnv where
  sendResult : Int
  receiveResult : Int
  accel : Option Bool
deriving DecidableEq, Repr

/-- `MediaDecoder::flush(VideoFrame&)` (media_decoder.cpp lines 467-497):
drain step with the same submission/retrieval mapping as decode, except the
accelerator-failure checks on the error paths are absent and, on a produced
frame, extraction runs only when the accelerator has not failed, while the
status stays `FrameFinished`. -/
def flush (env : FlushEnv) : Status × DecodeEffects :=
  if env.sendResult < 0 then
    if env.sendResult = AVERROR_EOF then (Status.Success, ⟨false, false, false⟩)
    else (Status.DecodeError, ⟨false, false, false⟩)
  else if env.receiveResult < 0 ∧ env.receiveResult ≠ AVERROR_EAGAIN ∧
      env.receiveResult ≠ AVERROR_EOF then
    (Status.DecodeError, ⟨false, false, false⟩)
  else if 0 ≤ env.receiveResult then
    if env.accel.isSome ∧ ¬ accelFailed env.accel then
      (Status.FrameFinished, ⟨true, true, true⟩)
    else (Status.FrameFinished, ⟨true, true, false⟩)
  else
    (Status.Success, ⟨false, false, false⟩)

/-- libav pixel-format enum value. -/
def AV_PIX_FMT_YUV420P : Int := 0

/-- libav pixel-format enum value. -/
def AV_PIX_FMT_YUV422P : Int := 4

/-- libav pixel-format enum value. -/
def AV_PIX_FMT_YUV444P : Int := 5

/-- libav pixel-format enum value. -/
def AV_PIX_FMT_YUVJ420P : Int := 12

/-- libav pixel-format enum value. -/
def AV_PIX_FMT_YUVJ422P : Int := 13

/-- libav pixel-format enum value. -/
def AV_PIX_FMT_YUVJ444P : Int := 14

/-- libav pixel-format enum value. -/
def AV_PIX_FMT_YUV440P : Int := 31

/-- libav pixel-format enum value. -/
def AV_PIX_FMT_YUVJ440P : Int := 32

/-- `MediaDecoder::correctPixFmt` (media_decoder.cpp lines 559-582):
switch mapping the four full-range JPEG-style formats to their conventional
equivalents, default case identity. -/
def correctPixFmt (input_pix_fmt : Int) : Int :=
  if input_pix_fmt = AV_PIX_FMT_YUVJ420P then AV_PIX_FMT_YUV420P
  else if input_pix_fmt = AV_PIX_FMT_YUVJ422P then AV_PIX_FMT_YUV422P
  else if input_pix_fmt = AV_PIX_FMT_YUVJ444P then AV_PIX_FMT_YUV444P
  else if input_pix_fmt = AV_PIX_FMT_YUVJ440P then AV_PIX_FMT_YUV440P
  else input_pix_fmt

/-- Input device parameters (`DeviceParams` from media_device.h as consumed
by `MediaDecoder::openInput`): only the fields openInput reads. -/
structure DeviceParams where
  input : String
  format : String
  pixel_format : String
  width : Nat
  height : Nat
  framerate : Rat
  offset_x : Int
  offset_y : Int
  channel : Nat
  loop : String
  sdp_flags : String
deriving DecidableEq, Repr

/-- `jitterBufferMaxSize_` (media_decoder.cpp line 48): maximum number of
packets the jitter buffer can queue. -/
def jitterBufferMaxSize : Nat := 1500

/-- `jitterBufferMaxDelay_` (media_decoder.cpp line 50), in milliseconds. -/
def jitterBufferMaxDelayMs : Nat := 50

/-- Microsecond rendering of `jitterBufferMaxDelay_` as passed to
`av_dict_set(&options_, "max_delay", ...)`. -/
def jitterBufferMaxDelayUs : Nat := jitterBufferMaxDelayMs * 1000

/-- Option dictionary built by `MediaDecoder::openInput` (media_decoder.cpp
lines 75-103), as the ordered list of `av_dict_set` key/value insertions
(all keys distinct; non-Windows branch, so the framerate option is
included when non-zero). -/
def buildOptions (p : DeviceParams) : List (String × String) :=
  (if p.width ≠ 0 ∧ p.height ≠ 0 then
      [("video_size", toString p.width ++ "x" ++ toString p.height)]
    else [])
  ++ (if p.framerate ≠ 0 then [("framerate", toString p.framerate)] else [])
  ++ (if p.offset_x ≠ 0 ∨ p.offset_y ≠ 0 then
      [("offset_x", toString p.offset_x), ("offset_y", toString p.offset_y)]
    else [])
  ++ (if p.channel ≠ 0 then [("channel", toString p.channel)] else [])
  ++ [("loop", p.loop), ("sdp_flags", p.sdp_flags),
      ("reorder_queue_size", toString jitterBufferMaxSize),
      ("max_delay", toString jitterBufferMaxDelayUs)]
  ++ (if p.pixel_format ≠ "" then [("pixel_format", p.pixel_format)] else [])

/-- An option with the given key is present in the built set. -/
def hasOpt (opts : List (String × String)) (key : String) : Bool :=
  opts.any (fun kv => kv.1 = key)

/-- Media kind of a stream entry (`codecpar->codec_type`). -/
inductive MediaType
  | audio
  | video
  | other
deriving DecidableEq, Repr

/-- `AV_NOPTS_VALUE` (`INT64_MIN`). -/
def AV_NOPTS_VALUE : Int := -(2 ^ 63)

/-- The decoder-instance state the setup claims are about: the selected
stream index and the rate-emulation origin timestamp. -/
structure DecoderState where
  streamIndex : Int
  startTime : Int
deriving DecidableEq, Repr

/-- Modelled from the spec: the in-class initializer `streamIndex_ = -1`
lives in media_decoder.h, which is not among the sources; the spec fixes
the sentinel "unselected" value to -1.  The `startTime_ = AV_NOPTS_VALUE`
part is from the constructor (media_decoder.cpp lines 52-56). -/
def initialState : DecoderState := ⟨-1, AV_NOPTS_VALUE⟩

/-- Oracle inputs for one `setupFromAudioData` / `setupFromVideoData` call:
the `avformat_find_stream_info` result, the codec types of the input's
streams in table order, whether a decoder implementation was resolved for
the selected stream, the `avcodec_open2` result, and `av_gettime()` at this
call. -/
structure SetupEnv where
  findStreamInfoResult : Int
  streams : List MediaType
  decoderFound : Bool
  openResult : Int
  now : Int
deriving DecidableEq, Repr

/-- The stream-selection loop shared by both setup functions
(media_decoder.cpp lines 171-177 and 262-268):
`for (i = 0; streamIndex_ == -1 && i < nb_streams; ++i) if (type matches) streamIndex_ = i;`
`i` is the index of the head of the remaining list, `si` the current
`streamIndex_`. -/
def scanLoop (kind : MediaType) : List MediaType → Int → Int → Int
  | [], _, si => si
  | t :: rest, i, si =>
    if si = -1 then scanLoop kind rest (i + 1) (if t = kind then i else si)
    else si

/-- Index of the first stream of the given kind in table order (the spec's
"first match wins, scan order = stream table order"). -/
def firstIndexOf (kind : MediaType) : List MediaType → Option Nat
  | [] => none
  | t :: rest => if t = kind then some 0 else (firstIndexOf kind rest).map (· + 1)

/-- Shared body of the two setup functions (media_decoder.cpp lines
143-229 and 232-327 are line-for-line identical in the modelled state,
differing only in the media kind scanned for): probe stream info, run the
selection loop, resolve a decoder, record the rate-emulation origin when
`emulateRate_` is set (before `avcodec_open2`), and open the codec.
Returns the C++ result code paired with the new state. -/
def setupCore (kind : MediaType) (emulateRate : Bool) (env : SetupEnv) (s : DecoderState) :
    Int × DecoderState :=
  if env.findStreamInfoResult < 0 then (-1, s)
  else if scanLoop kind env.streams 0 s.streamIndex = -1 then
    (-1, { s with streamIndex := scanLoop kind env.streams 0 s.streamIndex })
  else if ¬ env.decoderFound then
    (-1, { s with streamIndex := scanLoop kind env.streams 0 s.streamIndex })
  else if env.openResult ≠ 0 then
    (-1,
      if emulateRate then
        { s with streamIndex := scanLoop kind env.streams 0 s.streamIndex,
                 startTime := env.now }
      else { s with streamIndex := scanLoop kind env.streams 0 s.streamIndex })
  else
    (0,
      if emulateRate then
        { s with streamIndex := scanLoop kind env.streams 0 s.streamIndex,
                 startTime := env.now }
      else { s with streamIndex := scanLoop kind env.streams 0 s.streamIndex })

/-- `MediaDecoder::setupFromAudioData` (media_decoder.cpp lines 143-229),
restricted to the modelled state. -/
def setupFromAudioData (emulateRate : Bool) (env : SetupEnv) (s : DecoderState) :
    Int × DecoderState :=
  setupCore MediaType.audio emulateRate env s

/-- `MediaDecoder::setupFromVideoData` (media_decoder.cpp lines 232-327),
restricted to the modelled state; the video-only EOF-workaround and
accelerator attachment do not touch the modelled state. -/
def setupFromVideoData (emulateRate : Bool) (env : SetupEnv) (s : DecoderState) :
    Int × DecoderState :=
  setupCore MediaType.video emulateRate env s

/-- Audio format pair (`AudioFormat`): sample rate and channel count. -/
structure AudioFormat where
  sample_rate : Nat
  nb_channels : Nat
deriving DecidableEq, Repr

/-- Resampler-related state of the decoder across `writeToRingBuffer`
calls: `resampler_` is `some f` when a `Resampler(f)` has been constructed
(`f` the `outFormat` it was built with), and `constructions` counts how
many times `new Resampler(...)` ran. -/
structure ResamplerState where
  resampler : Option AudioFormat
  constructions : Nat
deriving DecidableEq, Repr

/-- The fields of a decoded libav audio frame read by
`writeToRingBuffer`. -/
structure AudioFrameData where
  sample_rate : Nat
  nb_samples : Nat
deriving DecidableEq, Repr

/-- Description of the buffer pushed into the ring buffer by one
`writeToRingBuffer` call: its audio format and whether it was the
resampling scratch buffer (`resamplingBuff_`) rather than the
post-conversion buffer (`decBuff_`). -/
structure RingPush where
  fmt : AudioFormat
  fromResamplingBuff : Bool
deriving DecidableEq, Repr

/-- `MediaDecoder::writeToRingBuffer` (media_decoder.cpp lines 526-557),
restricted to resampler handling and the pushed buffer's format:
`decBuff_` is shaped to the frame's rate and the context's channels; when
the frame rate differs from `outFormat.sample_rate` a resampler is built
once (`if (!resampler_)`) and `resamplingBuff_`, shaped to the target rate
and the context's channels, is pushed; otherwise `decBuff_` is pushed. -/
def writeToRingBuffer (ctxChannels : Nat) (frame : AudioFrameData)
    (outFormat : AudioFormat) (s : ResamplerState) : ResamplerState × RingPush :=
  if frame.sample_rate ≠ outFormat.sample_rate then
    let s' : ResamplerState :=
      if s.resampler.isNone then ⟨some outFormat, s.constructions + 1⟩ else s
    (s', ⟨⟨outFormat.sample_rate, ctxChannels⟩, true⟩)
  else
    (s, ⟨⟨frame.sample_rate, ctxChannels⟩, false⟩)

/-- Repeated `writeToRingBuffer` calls with a fixed context channel count
and target output format, threading the resampler state and collecting the
pushed buffers. -/
def runCalls (ctxChannels : Nat) (outFormat : AudioFormat) :
    List AudioFrameData → ResamplerState → ResamplerState × List RingPush
  | [], s => (s, [])
  | f :: fs, s =>
    let r := writeToRingBuffer ctxChannels f outFormat s
    let rest := runCalls ctxChannels outFormat fs r.1
    (rest.1, r.2 :: rest.2)

/-! Helper lemmas shared by the claim theorems. -/

lemma read_ok_ne_eagain {r : Int} (h : 0 ≤ r) : r ≠ AVERROR_EAGAIN := by
  unfold AVERROR_EAGAIN; omega

lemma read_ok_ne_eof {r : Int} (h : 0 ≤ r) : r ≠ AVERROR_EOF := by
  unfold AVERROR_EOF; omega

lemma read_ok_not_neg {r : Int} (h : 0 ≤ r) : ¬ r < 0 := by omega

/-- C4: `correctPixFmt` maps YUVJ420P to YUV420P, YUVJ422P to YUV422P,
YUVJ444P to YUV444P, YUVJ440P to YUV440P, is the identity on every other
pixel-format code, and is idempotent. -/
theorem C4_correctPixFmt_total_idempotent :
    (correctPixFmt AV_PIX_FMT_YUVJ420P = AV_PIX_FMT_YUV420P) ∧
    (correctPixFmt AV_PIX_FMT_YUVJ422P = AV_PIX_FMT_YUV422P) ∧
    (correctPixFmt AV_PIX_FMT_YUVJ444P = AV_PIX_FMT_YUV444P) ∧
    (correctPixFmt AV_PIX_FMT_YUVJ440P = AV_PIX_FMT_YUV440P) ∧
    (∀ f : Int, f ≠ AV_PIX_FMT_YUVJ420P → f ≠ AV_PIX_FMT_YUVJ422P →
      f ≠ AV_PIX_FMT_YUVJ444P → f ≠ AV_PIX_FMT_YUVJ440P → correctPixFmt f = f) ∧
    (∀ f : Int, correctPixFmt (correctPixFmt f) = correctPixFmt f) := by
  refine ⟨by decide, by decide, by decide, by decide, ?_, ?_⟩
  · intro f h1 h2 h3 h4
    simp [correctPixFmt, h1, h2, h3, h4]
  · intro f
    by_cases h1 : f = AV_PIX_FMT_YUVJ420P
    · subst h1; decide
    by_cases h2 : f = AV_PIX_FMT_YUVJ422P
    · subst h2; decide
    by_cases h3 : f = AV_PIX_FMT_YUVJ444P
    · subst h3; decide
    by_cases h4 : f = AV_PIX_FMT_YUVJ440P
    · subst h4; decide
    have hid : correctPixFmt f = f := by simp [correctPixFmt, h1, h2, h3, h4]
    rw [hid, hid]

/-- C4 witness: the identity clause at format code 7 and idempotence at
YUVJ420P, obtained from the claim theorem at concrete inputs. -/
theorem C4_witness :
    correctPixFmt 7 = 7 ∧
    correctPixFmt (correctPixFmt AV_PIX_FMT_YUVJ420P) = correctPixFmt AV_PIX_FMT_YUVJ420P :=
  ⟨C4_correctPixFmt_total_idempotent.2.2.2.2.1 7 (by decide) (by decide) (by decide) (by decide),
   C4_correctPixFmt_total_idempotent.2.2.2.2.2 AV_PIX_FMT_YUVJ420P⟩

/-- C3: on a successful read whose packet carries a stream index different
from the selected one, both decode variants free the packet, return
`Success`, and leave the caller's frame untouched. -/
theorem C3_foreign_packet_dropped (si : Int) (venv : VideoDecodeEnv) (aenv : AudioDecodeEnv)
    (hvr : 0 ≤ venv.readResult) (hvp : venv.packetStreamIndex ≠ si)
    (har : 0 ≤ aenv.readResult) (hap : aenv.packetStreamIndex ≠ si) :
    decodeVideo si venv = (Status.Success, ⟨true, false, false⟩) ∧
    decodeAudio si aenv = (Status.Success, ⟨true, false⟩) := by
  constructor
  · simp [decodeVideo, read_ok_ne_eagain hvr, read_ok_ne_eof hvr, read_ok_not_neg hvr, hvp]
  · simp [decodeAudio, read_ok_ne_eagain har, read_ok_ne_eof har, read_ok_not_neg har, hap]

/-- C3 witness: both variants at a concrete foreign-stream packet. -/
theorem C3_witness :
    decodeVideo 0 ⟨0, 3, 0, 0, none⟩ = (Status.Success, ⟨true, false, false⟩) ∧
    decodeAudio 0 ⟨0, 3, 0, 0⟩ = (Status.Success, ⟨true, false⟩) :=
  C3_foreign_packet_dropped 0 ⟨0, 3, 0, 0, none⟩ ⟨0, 3, 0, 0⟩
    (by decide) (by decide) (by decide) (by decide)

/-- C1 counterexample: frame retrieval returns the negative result
`AVERROR(EAGAIN)` while the attached accelerator reports hasFailed, yet
`decode` returns `Success`, not `RestartRequired`, refuting the claim as
stated for retrieval-negative results. -/
theorem C1_counterexample :
    AVERROR_EAGAIN < 0 ∧
    (decodeVideo 0 ⟨0, 0, 0, AVERROR_EAGAIN, some true⟩).1 ≠ Status.RestartRequired := by
  decide

/-- C1 amended: with a failed attached accelerator, a matching packet and a
successful read, video decode returns `RestartRequired` on every submission
failure, on every retrieval failure other than would-block/EOF, and
whenever a frame was produced; it never returns `DecodeError` or
`FrameFinished`, and on a would-block/EOF retrieval it returns `Success`
with no frame written (so nothing is silently dropped). -/
theorem C1_accel_failure_restart (si : Int) (env : VideoDecodeEnv)
    (hr : 0 ≤ env.readResult) (hp : env.packetStreamIndex = si)
    (ha : env.accel = some true) :
    (env.sendResult < 0 → (decodeVideo si env).1 = Status.RestartRequired) ∧
    (0 ≤ env.sendResult → env.receiveResult < 0 → env.receiveResult ≠ AVERROR_EAGAIN →
      env.receiveResult ≠ AVERROR_EOF → (decodeVideo si env).1 = Status.RestartRequired) ∧
    (0 ≤ env.sendResult → 0 ≤ env.receiveResult →
      (decodeVideo si env).1 = Status.RestartRequired) ∧
    ((decodeVideo si env).1 ≠ Status.DecodeError) ∧
    ((decodeVideo si env).1 ≠ Status.FrameFinished) ∧
    (0 ≤ env.sendResult →
      (env.receiveResult = AVERROR_EAGAIN ∨ env.receiveResult = AVERROR_EOF) →
      decodeVideo si env = (Status.Success, ⟨true, false, false⟩)) := by
  have h1 := read_ok_ne_eagain hr
  have h2 := read_ok_ne_eof hr
  have h3 := read_ok_not_neg hr
  simp only [decodeVideo, h1, h2, h3, hp, ha, accelFailed]
  constructor
  · intro hs
    simp [h1, h2, h3, hs]
  constructor
  · intro hs hrv hrv1 hrv2
    simp [h1, h2, h3, read_ok_not_neg hs, hrv, hrv1, hrv2]
  constructor
  · intro hs hrv
    simp [h1, h2, h3, read_ok_not_neg hs, read_ok_not_neg hrv,
      read_ok_ne_eagain hrv, read_ok_ne_eof hrv, hrv]
  refine ⟨?_, ?_, ?_⟩
  · by_cases hs : env.sendResult < 0
    · simp [h1, h2, h3, hs]
    · by_cases hrv : env.receiveResult < 0 ∧ env.receiveResult ≠ AVERROR_EAGAIN ∧
          env.receiveResult ≠ AVERROR_EOF
      · simp [h1, h2, h3, hs, hrv]
      · by_cases hfin : 0 ≤ env.receiveResult
        · simp [h1, h2, h3, hs, hrv, hfin]
        · simp [h1, h2, h3, hs, hrv, hfin]
  · by_cases hs : env.sendResult < 0
    · simp [h1, h2, h3, hs]
    · by_cases hrv : env.receiveResult < 0 ∧ env.receiveResult ≠ AVERROR_EAGAIN ∧
          env.receiveResult ≠ AVERROR_EOF
      · simp [h1, h2, h3, hs, hrv]
      · by_cases hfin : 0 ≤ env.receiveResult
        · simp [h1, h2, h3, hs, hrv, hfin]
        · simp [h1, h2, h3, hs, hrv, hfin]
  · intro hs hrv
    rcases hrv with hrv | hrv <;>
      simp [h1, h2, h3, read_ok_not_neg hs, hrv, AVERROR_EAGAIN, AVERROR_EOF]

/-- C1 witness: all three places at concrete failed-accelerator inputs:
submission failure, hard retrieval failure, and a produced frame. -/
theorem C1_witness :
    (decodeVideo 0 ⟨0, 0, -22, 0, some true⟩).1 = Status.RestartRequired ∧
    (decodeVideo 0 ⟨0, 0, 0, -22, some true⟩).1 = Status.RestartRequired ∧
    (decodeVideo 0 ⟨0, 0, 0, 0, some true⟩).1 = Status.RestartRequired :=
  ⟨(C1_accel_failure_restart 0 ⟨0, 0, -22, 0, some true⟩ (by decide) rfl rfl).1 (by decide),
   (C1_accel_failure_restart 0 ⟨0, 0, 0, -22, some true⟩ (by decide) rfl rfl).2.1
     (by decide) (by decide) (by decide) (by decide),
   (C1_accel_failure_restart 0 ⟨0, 0, 0, 0, some true⟩ (by decide) rfl rfl).2.2.1
     (by decide) (by decide)⟩

/-- C2 counterexample: an audio decode call on a matching-stream packet in
which submission succeeds and retrieval reports would-block (no frame
produced) returns `Success` without ever releasing the packet, refuting
"released on every return path". -/
theorem C2_counterexample :
    (decodeAudio 0 ⟨0, 0, 0, AVERROR_EAGAIN⟩).1 = Status.Success ∧
    (decodeAudio 0 ⟨0, 0, 0, AVERROR_EAGAIN⟩).2.packetUnref = false := by
  decide

set_option maxHeartbeats 1600000 in
/-- C2 amended: for a matching-stream packet, the video variant releases
the packet exactly when submission succeeded and retrieval did not
hard-fail (frame or no frame), and the audio variant releases it exactly
when a frame was produced; on submission-error and retrieval-error paths
(and the audio no-frame path) the packet is not released. -/
theorem C2_packet_release (si : Int) (venv : VideoDecodeEnv) (aenv : AudioDecodeEnv)
    (hvr : 0 ≤ venv.readResult) (hvp : venv.packetStreamIndex = si)
    (har : 0 ≤ aenv.readResult) (hap : aenv.packetStreamIndex = si) :
    ((decodeVideo si venv).2.packetUnref = true ↔
      (0 ≤ venv.sendResult ∧ (0 ≤ venv.receiveResult ∨
        venv.receiveResult = AVERROR_EAGAIN ∨ venv.receiveResult = AVERROR_EOF))) ∧
    ((decodeAudio si aenv).2.packetUnref = true ↔
      (0 ≤ aenv.sendResult ∧ 0 ≤ aenv.receiveResult)) := by
  have h1 := read_ok_ne_eagain hvr
  have h2 := read_ok_ne_eof hvr
  have h3 := read_ok_not_neg hvr
  have h4 := read_ok_ne_eagain har
  have h5 := read_ok_ne_eof har
  have h6 := read_ok_not_neg har
  constructor
  · by_cases hs : venv.sendResult < 0 <;>
      by_cases hr0 : venv.receiveResult < 0 <;>
      by_cases he1 : venv.receiveResult = AVERROR_EAGAIN <;>
      by_cases he2 : venv.receiveResult = AVERROR_EOF <;>
      simp_all [decodeVideo, AVERROR_EAGAIN, AVERROR_EOF,
        apply_ite (fun p : Status × DecodeEffects => p.2.packetUnref)]
  · by_cases hs : aenv.sendResult < 0 <;>
      by_cases hr0 : aenv.receiveResult < 0 <;>
      by_cases he1 : aenv.receiveResult = AVERROR_EAGAIN <;>
      by_cases he2 : aenv.receiveResult = AVERROR_EOF <;>
      simp_all [decodeAudio, AVERROR_EAGAIN, AVERROR_EOF,
        apply_ite (fun p : Status × AudioDecodeEffects => p.2.packetUnref)]

/-- C2 witness: the released and not-released sides at concrete inputs. -/
theorem C2_witness :
    (decodeVideo 0 ⟨0, 0, 0, 0, none⟩).2.packetUnref = true ∧
    (decodeAudio 0 ⟨0, 0, -22, 0⟩).2.packetUnref ≠ true :=
  ⟨(C2_packet_release 0 ⟨0, 0, 0, 0, none⟩ ⟨0, 0, 0, 0⟩
      (by decide) rfl (by decide) rfl).1.mpr (by decide),
   fun h => absurd ((C2_packet_release 0 ⟨0, 0, 0, 0, none⟩ ⟨0, 0, -22, 0⟩
     (by decide) rfl (by decide) rfl).2.mp h).1 (by decide)⟩

/-- C5 counterexample: flush with a produced frame and a failed attached
accelerator returns `FrameFinished` but never calls `extractData`, refuting
"still attempts to extract the already-valid decoded data". -/
theorem C5_counterexample :
    (flush ⟨0, 0, some true⟩).1 = Status.FrameFinished ∧
    (flush ⟨0, 0, some true⟩).2.extractCalled = false := by
  decide

/-- C5 amended: when flush produces a frame while the attached accelerator
reports hasFailed, flush does not return `RestartRequired` — it returns
`FrameFinished` with the already-decoded frame — but it skips extraction
(extraction runs only when the accelerator has not failed). -/
theorem C5_flush_no_restart (env : FlushEnv)
    (hs : 0 ≤ env.sendResult) (hr : 0 ≤ env.receiveResult) (ha : env.accel = some true) :
    (flush env).1 = Status.FrameFinished ∧
    (flush env).1 ≠ Status.RestartRequired ∧
    (flush env).2.frameWritten = true ∧
    (flush env).2.extractCalled = false := by
  simp [flush, read_ok_not_neg hs, hr, read_ok_not_neg hr,
    read_ok_ne_eagain hr, read_ok_ne_eof hr, ha, accelFailed]

/-- C5 witness: the amended flush behavior at a concrete input. -/
theorem C5_witness :
    (flush ⟨1, 1, some true⟩).1 = Status.FrameFinished ∧
    (flush ⟨1, 1, some true⟩).2.extractCalled = false :=
  ⟨(C5_flush_no_restart ⟨1, 1, some true⟩ (by decide) (by decide) rfl).1,
   (C5_flush_no_restart ⟨1, 1, some true⟩ (by decide) (by decide) rfl).2.2.2⟩

/-- C7: option-set construction in `openInput`: geometry `"WxH"` iff both
width and height are non-zero, channel iff non-zero, pixel format iff
non-empty, loop and sdp_flags always verbatim, offsets exactly when some
offset is non-zero, and the jitter-buffer options `reorder_queue_size =
1500` and `max_delay = 50000` (microseconds) always present. -/
theorem C7_openInput_options (p : DeviceParams) :
    (hasOpt (buildOptions p) "video_size" = true ↔ (p.width ≠ 0 ∧ p.height ≠ 0)) ∧
    ((p.width ≠ 0 ∧ p.height ≠ 0) →
      ("video_size", toString p.width ++ "x" ++ toString p.height) ∈ buildOptions p) ∧
    (hasOpt (buildOptions p) "channel" = true ↔ p.channel ≠ 0) ∧
    (hasOpt (buildOptions p) "pixel_format" = true ↔ p.pixel_format ≠ "") ∧
    (("loop", p.loop) ∈ buildOptions p) ∧
    (("sdp_flags", p.sdp_flags) ∈ buildOptions p) ∧
    (hasOpt (buildOptions p) "offset_x" = true ↔ (p.offset_x ≠ 0 ∨ p.offset_y ≠ 0)) ∧
    (hasOpt (buildOptions p) "offset_y" = true ↔ (p.offset_x ≠ 0 ∨ p.offset_y ≠ 0)) ∧
    (("reorder_queue_size", "1500") ∈ buildOptions p) ∧
    (("max_delay", "50000") ∈ buildOptions p) := by
  by_cases hwh : p.width ≠ 0 ∧ p.height ≠ 0 <;>
    by_cases hf : p.framerate ≠ 0 <;>
    by_cases ho : p.offset_x ≠ 0 ∨ p.offset_y ≠ 0 <;>
    by_cases hc : p.channel ≠ 0 <;>
    by_cases hpx : p.pixel_format ≠ "" <;>
    simp_all [buildOptions, hasOpt, jitterBufferMaxSize, jitterBufferMaxDelayUs,
      jitterBufferMaxDelayMs] <;>
    exact ⟨rfl, rfl⟩

/-- C7 witness: the conditional clauses at a fully-populated concrete
parameter set. -/
theorem C7_witness :
    ("video_size", toString 640 ++ "x" ++ toString 480) ∈
      buildOptions ⟨"in", "v4l2", "yuv420p", 640, 480, 30, 4, 0, 2, "1", "custom_io"⟩ :=
  (C7_openInput_options ⟨"in", "v4l2", "yuv420p", 640, 480, 30, 4, 0, 2, "1", "custom_io"⟩).2.1
    (by decide)

/-- State-transition lemma for the resampler: once `resampler_` is
non-null, no `writeToRingBuffer` call changes the resampler state. -/
lemma writeToRingBuffer_state_some (ch : Nat) (f : AudioFrameData) (out F : AudioFormat)
    (s : ResamplerState) (h : s.resampler = some F) :
    (writeToRingBuffer ch f out s).1 = s := by
  unfold writeToRingBuffer
  split_ifs <;> simp_all

/-- Once the resampler exists, a run of calls leaves the state fixed. -/
lemma runCalls_state_some (ch : Nat) (out F : AudioFormat) (frames : List AudioFrameData)
    (s : ResamplerState) (h : s.resampler = some F) :
    (runCalls ch out frames s).1 = s := by
  induction frames with
  | nil => rfl
  | cons f fs ih =>
    simp only [runCalls]
    rw [writeToRingBuffer_state_some ch f out F s h]
    exact ih

/-- Every call on a rate-mismatched frame pushes the resampling buffer,
formatted to the target rate and the context's channel count. -/
lemma runCalls_pushes (ch : Nat) (out : AudioFormat) (frames : List AudioFrameData)
    (s : ResamplerState) (hmis : ∀ f ∈ frames, f.sample_rate ≠ out.sample_rate) :
    ∀ p ∈ (runCalls ch out frames s).2, p = ⟨⟨out.sample_rate, ch⟩, true⟩ := by
  induction frames generalizing s with
  | nil => intro p hp; simp [runCalls] at hp
  | cons f fs ih =>
    intro p hp
    simp only [runCalls, List.mem_cons] at hp
    rcases hp with hp | hp
    · have hf : f.sample_rate ≠ out.sample_rate := hmis f (by simp)
      subst hp
      simp [writeToRingBuffer, hf]
    · exact ih _ (fun g hg => hmis g (List.mem_cons_of_mem f hg)) p hp

/-- C8: starting with no resampler, a non-empty run of calls whose frames
all mismatch the target rate constructs the resampler exactly once, built
for the target format; every pushed buffer is the resampling buffer at the
target rate and the context's channel count; and a call whose frame rate
equals the target rate pushes the post-conversion buffer directly without
touching the resampler state. -/
theorem C8_resampler_once (ch : Nat) (out : AudioFormat) (frames : List AudioFrameData)
    (hmis : ∀ f ∈ frames, f.sample_rate ≠ out.sample_rate) (hne : frames ≠ []) :
    (runCalls ch out frames ⟨none, 0⟩).1.constructions = 1 ∧
    (runCalls ch out frames ⟨none, 0⟩).1.resampler = some out ∧
    (∀ p ∈ (runCalls ch out frames ⟨none, 0⟩).2,
      p = ⟨⟨out.sample_rate, ch⟩, true⟩) ∧
    (∀ (f : AudioFrameData) (s : ResamplerState), f.sample_rate = out.sample_rate →
      writeToRingBuffer ch f out s = (s, ⟨⟨f.sample_rate, ch⟩, false⟩)) := by
  refine ⟨?_, ?_, runCalls_pushes ch out frames ⟨none, 0⟩ hmis, ?_⟩
  · cases frames with
    | nil => exact absurd rfl hne
    | cons f fs =>
      have hf : f.sample_rate ≠ out.sample_rate := hmis f (by simp)
      simp only [runCalls]
      rw [show (writeToRingBuffer ch f out ⟨none, 0⟩).1 = ⟨some out, 1⟩ by
        simp [writeToRingBuffer, hf]]
      rw [runCalls_state_some ch out out fs ⟨some out, 1⟩ rfl]
  · cases frames with
    | nil => exact absurd rfl hne
    | cons f fs =>
      have hf : f.sample_rate ≠ out.sample_rate := hmis f (by simp)
      simp only [runCalls]
      rw [show (writeToRingBuffer ch f out ⟨none, 0⟩).1 = ⟨some out, 1⟩ by
        simp [writeToRingBuffer, hf]]
      rw [runCalls_state_some ch out out fs ⟨some out, 1⟩ rfl]
  · intro f s hf
    simp [writeToRingBuffer, hf]

/-- C8 witness: two 48 kHz frames against a 16 kHz target build the
resampler exactly once and push target-format buffers. -/
theorem C8_witness :
    (runCalls 2 ⟨16000, 2⟩ [⟨48000, 960⟩, ⟨48000, 960⟩] ⟨none, 0⟩).1.constructions = 1 ∧
    (runCalls 2 ⟨16000, 2⟩ [⟨48000, 960⟩, ⟨48000, 960⟩] ⟨none, 0⟩).1.resampler =
      some ⟨16000, 2⟩ :=
  ⟨(C8_resampler_once 2 ⟨16000, 2⟩ [⟨48000, 960⟩, ⟨48000, 960⟩]
      (by decide) (by decide)).1,
   (C8_resampler_once 2 ⟨16000, 2⟩ [⟨48000, 960⟩, ⟨48000, 960⟩]
      (by decide) (by decide)).2.1⟩

/-- C10: once the resampler has been constructed (for format `F`), any
later `writeToRingBuffer` call — even with a different target output
format — neither reconstructs nor reconfigures it: the stored format and
the construction count are unchanged. -/
theorem C10_resampler_never_rebuilt (ch : Nat) (f : AudioFrameData) (out F : AudioFormat)
    (s : ResamplerState) (h : s.resampler = some F) :
    (writeToRingBuffer ch f out s).1.resampler = some F ∧
    (writeToRingBuffer ch f out s).1.constructions = s.constructions := by
  rw [writeToRingBuffer_state_some ch f out F s h]
  exact ⟨h, rfl⟩

/-- C10 witness: a mismatching call with a target format different from the
one the resampler was built with still leaves the resampler untouched. -/
theorem C10_witness :
    (writeToRingBuffer 2 ⟨48000, 960⟩ ⟨8000, 2⟩ ⟨some ⟨16000, 2⟩, 5⟩).1.resampler =
      some ⟨16000, 2⟩ ∧
    (writeToRingBuffer 2 ⟨48000, 960⟩ ⟨8000, 2⟩ ⟨some ⟨16000, 2⟩, 5⟩).1.constructions = 5 :=
  C10_resampler_never_rebuilt 2 ⟨48000, 960⟩ ⟨8000, 2⟩ ⟨16000, 2⟩ ⟨some ⟨16000, 2⟩, 5⟩ rfl


/-- Once `streamIndex_` is set (non-sentinel), the selection loop exits
immediately and leaves it unchanged. -/
lemma scanLoop_stopped (kind : MediaType) (streams : List MediaType) (i si : Int)
    (h : si ≠ -1) : scanLoop kind streams i si = si := by
  cases streams <;> simp [scanLoop, h]

/-- From the sentinel, the selection loop computes exactly the index of the
first stream of the requested kind (offset by the starting index), or stays
at the sentinel when there is none. -/
lemma scanLoop_find (kind : MediaType) (streams : List MediaType) (i : Int) (hi : 0 ≤ i) :
    scanLoop kind streams i (-1) =
      (match firstIndexOf kind streams with
       | some j => i + (j : Int)
       | none => -1) := by
  induction streams generalizing i with
  | nil => simp [scanLoop, firstIndexOf]
  | cons t rest ih =>
    by_cases h : t = kind
    · simp only [scanLoop, firstIndexOf, h, if_pos, if_true]
      rw [scanLoop_stopped kind rest (i + 1) i (by omega)]
      simp
    · simp only [scanLoop, firstIndexOf, h, if_neg, if_false, ite_true]
      rw [ih (i + 1) (by omega)]
      cases hfi : firstIndexOf kind rest with
      | none => simp
      | some j =>
        simp
        ring

/-- `startTime_` characterization of one setup call: it is overwritten with
the current time exactly when probing succeeds, a stream is selected, a
decoder is found, and rate emulation is enabled — regardless of whether
`avcodec_open2` then succeeds. -/
lemma setupCore_startTime (kind : MediaType) (e : Bool) (env : SetupEnv) (s : DecoderState) :
    (setupCore kind e env s).2.startTime =
      (if 0 ≤ env.findStreamInfoResult ∧
          scanLoop kind env.streams 0 s.streamIndex ≠ -1 ∧
          env.decoderFound = true ∧ e = true
        then env.now else s.startTime) := by
  unfold setupCore
  split_ifs <;> simp_all <;> omega

/-- `streamIndex_` characterization of one setup call: unchanged when
probing fails, otherwise the selection loop's result. -/
lemma setupCore_streamIndex (kind : MediaType) (e : Bool) (env : SetupEnv) (s : DecoderState) :
    (setupCore kind e env s).2.streamIndex =
      (if env.findStreamInfoResult < 0 then s.streamIndex
       else scanLoop kind env.streams 0 s.streamIndex) := by
  unfold setupCore
  split_ifs <;> simp_all

/-- A setup call whose selection loop ends at the sentinel returns -1. -/
lemma setupCore_no_stream (kind : MediaType) (e : Bool) (env : SetupEnv) (s : DecoderState)
    (h : scanLoop kind env.streams 0 s.streamIndex = -1) :
    (setupCore kind e env s).1 = -1 := by
  unfold setupCore
  split_ifs <;> simp_all

/-- C6 counterexample: with rate emulation enabled, a second successful
`setupFromAudioData` call overwrites `startTime_` (100 becomes 200),
refuting "set exactly once and never overwritten afterwards". -/
theorem C6_counterexample :
    (setupFromAudioData true ⟨0, [MediaType.audio], true, 0, 100⟩ initialState).1 = 0 ∧
    (setupFromAudioData true ⟨0, [MediaType.audio], true, 0, 100⟩
      initialState).2.startTime = 100 ∧
    (setupFromAudioData true ⟨0, [MediaType.audio], true, 0, 200⟩
      (setupFromAudioData true ⟨0, [MediaType.audio], true, 0, 100⟩ initialState).2).1 = 0 ∧
    (setupFromAudioData true ⟨0, [MediaType.audio], true, 0, 200⟩
      (setupFromAudioData true ⟨0, [MediaType.audio], true, 0, 100⟩
        initialState).2).2.startTime = 200 := by
  decide

/-- C6 amended: when rate emulation is enabled, `startTime_` is overwritten
with the current wall-clock time on every setup call (audio or video) that
passes stream-info probing, stream selection, and decoder resolution —
including repeated setups and setups that subsequently fail at codec open;
in every other case (rate emulation off, or an earlier failure) it is left
unchanged.  It is not write-once. -/
theorem C6_startTime_every_setup (e : Bool) (env : SetupEnv) (s : DecoderState) :
    ((setupFromAudioData e env s).2.startTime =
      (if 0 ≤ env.findStreamInfoResult ∧
          scanLoop MediaType.audio env.streams 0 s.streamIndex ≠ -1 ∧
          env.decoderFound = true ∧ e = true
        then env.now else s.startTime)) ∧
    ((setupFromVideoData e env s).2.startTime =
      (if 0 ≤ env.findStreamInfoResult ∧
          scanLoop MediaType.video env.streams 0 s.streamIndex ≠ -1 ∧
          env.decoderFound = true ∧ e = true
        then env.now else s.startTime)) :=
  ⟨setupCore_startTime MediaType.audio e env s, setupCore_startTime MediaType.video e env s⟩

/-- C9: the selected stream index starts at the sentinel -1; any setup call
on a decoder whose index is already set leaves it unchanged; from the
sentinel, a setup call that passes probing sets it to the index of the
first stream of the requested kind in table order (staying at the sentinel
when there is none); and when no matching stream exists the setup call
returns the fatal code -1. -/
theorem C9_stream_selection :
    initialState.streamIndex = -1 ∧
    (∀ (e : Bool) (env : SetupEnv) (s : DecoderState), s.streamIndex ≠ -1 →
      (setupFromAudioData e env s).2.streamIndex = s.streamIndex ∧
      (setupFromVideoData e env s).2.streamIndex = s.streamIndex) ∧
    (∀ (e : Bool) (env : SetupEnv) (s : DecoderState), s.streamIndex = -1 →
      0 ≤ env.findStreamInfoResult →
      (setupFromAudioData e env s).2.streamIndex =
        (match firstIndexOf MediaType.audio env.streams with
         | some j => (j : Int)
         | none => -1) ∧
      (setupFromVideoData e env s).2.streamIndex =
        (match firstIndexOf MediaType.video env.streams with
         | some j => (j : Int)
         | none => -1)) ∧
    (∀ (e : Bool) (env : SetupEnv) (s : DecoderState), s.streamIndex = -1 →
      firstIndexOf MediaType.audio env.streams = none →
      (setupFromAudioData e env s).1 = -1) ∧
    (∀ (e : Bool) (env : SetupEnv) (s : DecoderState), s.streamIndex = -1 →
      firstIndexOf MediaType.video env.streams = none →
      (setupFromVideoData e env s).1 = -1) := by
  refine ⟨rfl, ?_, ?_, ?_, ?_⟩
  · intro e env s h
    refine ⟨?_, ?_⟩
    · rw [setupFromAudioData, setupCore_streamIndex]
      split_ifs <;> simp [scanLoop_stopped _ _ _ _ h]
    · rw [setupFromVideoData, setupCore_streamIndex]
      split_ifs <;> simp [scanLoop_stopped _ _ _ _ h]
  · intro e env s h h0
    refine ⟨?_, ?_⟩
    · rw [setupFromAudioData, setupCore_streamIndex, if_neg (by omega), h,
        scanLoop_find _ _ 0 (by omega)]
      cases firstIndexOf MediaType.audio env.streams <;> simp
    · rw [setupFromVideoData, setupCore_streamIndex, if_neg (by omega), h,
        scanLoop_find _ _ 0 (by omega)]
      cases firstIndexOf MediaType.video env.streams <;> simp
  · intro e env s h hfi
    rw [setupFromAudioData]
    apply setupCore_no_stream
    rw [h, scanLoop_find _ _ 0 (by omega), hfi]
  · intro e env s h hfi
    rw [setupFromVideoData]
    apply setupCore_no_stream
    rw [h, scanLoop_find _ _ 0 (by omega), hfi]

/-- C9 witness: first-match selection at a concrete stream table, and the
fatal code when no stream of the requested kind exists. -/
theorem C9_witness :
    (setupFromAudioData true
      ⟨0, [MediaType.video, MediaType.audio, MediaType.audio], true, 0, 7⟩
      initialState).2.streamIndex = 1 ∧
    (setupFromVideoData true ⟨0, [MediaType.audio], true, 0, 7⟩ initialState).1 = -1 :=
  ⟨((C9_stream_selection.2.2.1 true
      ⟨0, [MediaType.video, MediaType.audio, MediaType.audio], true, 0, 7⟩
      initialState rfl (by decide)).1).trans (by decide),
   C9_stream_selection.2.2.2.2 true ⟨0, [MediaType.audio], true, 0, 7⟩
     initialState rfl (by decide)⟩

end ring
